import Mathlib

/-
Verification of the notmarket-solana bonding-curve pricing engine.

The integer-valued control flow of src/programs/notmarket-solana is embedded
shallowly: u64 and u128 checked arithmetic becomes Nat arithmetic with explicit
range checks, fallible Rust functions become Except-valued Lean functions, and
the f64 segment of the pricing pipeline (which only ever produces the raw
lamports figure fed into the final zero-floor) is abstracted as a parameter,
so that every theorem quantifying over that parameter holds in particular for
the concrete floating-point computation of the source.
-/

/-- Error codes, from src/programs/notmarket-solana/src/errors.rs
(only the variants reachable from the pricing and trading paths are needed). -/
inductive Err where
  | InvalidAmount
  | InvalidPrice
  | MathOverflow
  | InsufficientSupply
  | InsufficientLiquidity
  | InsufficientBalance
  | TradingInactive
  | CurveGraduated
  | SlippageExceeded
  deriving DecidableEq

/-- Number of values of u64, i.e. 2 to the 64. -/
def U64_SIZE : Nat := 18446744073709551616

/-- Number of values of u128, i.e. 2 to the 128. -/
def U128_SIZE : Nat := 340282366920938463463374607431768211456

/-- Number of values of u32, i.e. 2 to the 32. -/
def U32_SIZE : Nat := 4294967296

/-- Number of values of u16, i.e. 2 to the 16. -/
def U16_SIZE : Nat := 65536

/-- Rust u64 checked_add followed by ok_or(MathOverflow), as used throughout
bonding_curve.rs and trading.rs. -/
def checked_add (a b : Nat) : Except Err Nat :=
  if a + b < U64_SIZE then .ok (a + b) else .error .MathOverflow

/-- Rust u32 checked_add followed by ok_or(MathOverflow) (user position counters). -/
def checked_add_u32 (a b : Nat) : Except Err Nat :=
  if a + b < U32_SIZE then .ok (a + b) else .error .MathOverflow

/-- Rust u64 checked_sub followed by ok_or(MathOverflow). -/
def checked_sub (a b : Nat) : Except Err Nat :=
  if b ≤ a then .ok (a - b) else .error .MathOverflow

/-- Rust u64 checked_mul followed by ok_or(MathOverflow). -/
def checked_mul (a b : Nat) : Except Err Nat :=
  if a * b < U64_SIZE then .ok (a * b) else .error .MathOverflow

/-- Rust u128 checked_mul followed by ok_or(MathOverflow), as in
calculate_usd_raised (bonding_curve.rs lines 211 to 213). -/
def checked_mul_u128 (a b : Nat) : Except Err Nat :=
  if a * b < U128_SIZE then .ok (a * b) else .error .MathOverflow

/-- Rust checked_div followed by ok_or(MathOverflow): None exactly on a zero
divisor (width-independent, quotients never overflow). -/
def checked_div (a b : Nat) : Except Err Nat :=
  if b = 0 then .error .MathOverflow else .ok (a / b)

/-- Tokenomics constants from src/programs/notmarket-solana/src/state.rs lines 4 to 15. -/
def CURVE_SUPPLY : Nat := 800000000000000000

/-- Graduation threshold in whole USD, state.rs line 7. -/
def GRADUATION_USD : Nat := 12000

/-- Scale factor for USD values, state.rs line 15. -/
def USD_SCALE : Nat := 100000000

/-- Start price of the curve in scaled USD, state.rs line 13. -/
def START_PRICE_USD : Nat := 420

/-- End price of the curve in scaled USD, state.rs line 14. -/
def END_PRICE_USD : Nat := 6900

/-- BondingCurveCalculator::to_token_count, bonding_curve.rs lines 37 to 39:
integer division strips the 9 decimal places. -/
def to_token_count (amount_with_decimals : Nat) : Nat :=
  amount_with_decimals / 1000000000

/-- Abstraction of the floating-point segment of the pricing pipeline.
buyLamports s q rate stands for bonding_curve.rs lines 68 to 98 of
calculate_buy_price: the f64 evaluation of the exponential curve at token
counts s and s plus q, the integral cost formula, the conversion through the
exchange rate, and the final saturating cast to u64 — a pure function of the
whole-token position s, the whole-token quantity q and sol_price_usd.
spotLamports c rate likewise stands for lines 145 to 156 of get_spot_price,
a pure function of the whole-token count c and sol_price_usd. All theorems
below quantify over this structure, so they hold for the concrete f64
computation of the source in particular. -/
structure CurveNumerics where
  buyLamports : Nat → Nat → Nat → Nat
  spotLamports : Nat → Nat → Nat

/-- BondingCurveCalculator::calculate_buy_price, bonding_curve.rs lines 57 to 104.
The two require checks and the checked_add are exact; the f64 block is
fm.buyLamports; the final zero-floor (lines 100 to 101) is exact. -/
def calculate_buy_price (fm : CurveNumerics)
    (tokens_sold amount sol_price_usd : Nat) : Except Err Nat :=
  if amount = 0 then .error .InvalidAmount
  else
    match checked_add tokens_sold amount with
    | .error e => .error e
    | .ok sum =>
      if sum ≤ CURVE_SUPPLY then
        let s := to_token_count tokens_sold
        let q := to_token_count amount
        let lamports := fm.buyLamports s q sol_price_usd
        .ok (if lamports = 0 then 1 else lamports)
      else .error .InsufficientSupply

/-- BondingCurveCalculator::calculate_sell_price, bonding_curve.rs lines 115 to 129:
two require checks, a checked_sub, then delegation to calculate_buy_price on
the interval from tokens_sold minus amount to tokens_sold. -/
def calculate_sell_price (fm : CurveNumerics)
    (tokens_sold amount sol_price_usd : Nat) : Except Err Nat :=
  if amount = 0 then .error .InvalidAmount
  else if tokens_sold < amount then .error .InsufficientSupply
  else
    match checked_sub tokens_sold amount with
    | .error e => .error e
    | .ok new_tokens_sold => calculate_buy_price fm new_tokens_sold amount sol_price_usd

/-- BondingCurveCalculator::get_spot_price, bonding_curve.rs lines 141 to 162:
no validation at all, an f64 price evaluation (fm.spotLamports), and the same
zero-floor as the buy path; always returns Ok. -/
def get_spot_price (fm : CurveNumerics) (tokens_sold sol_price_usd : Nat) : Except Err Nat :=
  let lamports := fm.spotLamports (to_token_count tokens_sold) sol_price_usd
  .ok (if lamports = 0 then 1 else lamports)

/-- BondingCurveCalculator::calculate_slippage, bonding_curve.rs lines 173 to 197.
The unwrap_or(0) on the checked_sub is exactly truncated Nat subtraction; the
final cast to u16 reduces modulo 2 to the 16. -/
def calculate_slippage (fm : CurveNumerics)
    (tokens_sold amount sol_price_usd : Nat) : Except Err Nat :=
  match get_spot_price fm tokens_sold sol_price_usd with
  | .error e => .error e
  | .ok spot_price =>
    match calculate_buy_price fm tokens_sold amount sol_price_usd with
    | .error e => .error e
    | .ok total_cost =>
      match checked_div total_cost amount with
      | .error e => .error e
      | .ok average_price =>
        if spot_price = 0 then .ok 0
        else
          match checked_mul (average_price - spot_price) 10000 with
          | .error e => .error e
          | .ok scaled =>
            match checked_div scaled spot_price with
            | .error e => .error e
            | .ok slippage => .ok (slippage % U16_SIZE)

/-- The same computation as calculate_slippage but without the dead
spot_price equal zero early return (bonding_curve.rs lines 184 to 186);
used to state that that branch is unreachable. -/
def calculate_slippage_nobranch (fm : CurveNumerics)
    (tokens_sold amount sol_price_usd : Nat) : Except Err Nat :=
  match get_spot_price fm tokens_sold sol_price_usd with
  | .error e => .error e
  | .ok spot_price =>
    match calculate_buy_price fm tokens_sold amount sol_price_usd with
    | .error e => .error e
    | .ok total_cost =>
      match checked_div total_cost amount with
      | .error e => .error e
      | .ok average_price =>
        match checked_mul (average_price - spot_price) 10000 with
        | .error e => .error e
        | .ok scaled =>
          match checked_div scaled spot_price with
          | .error e => .error e
          | .ok slippage => .ok (slippage % U16_SIZE)

/-- BondingCurveCalculator::calculate_usd_raised, bonding_curve.rs lines 207 to 218:
u128 checked multiply, checked divide by one billion, then the bare cast
as u64 of the u128 quotient, which reduces the quotient modulo 2 to the 64. -/
def calculate_usd_raised (sol_reserve sol_price_usd : Nat) : Except Err Nat :=
  match checked_mul_u128 sol_reserve sol_price_usd with
  | .error e => .error e
  | .ok prod =>
    match checked_div prod 1000000000 with
    | .error e => .error e
    | .ok q => .ok (q % U64_SIZE)

/-- BondingCurve account state, state.rs lines 86 to 105 (the pubkey and bump
fields play no role in any claim and are omitted; all integer fields are u64). -/
structure BondingCurve where
  sol_reserve : Nat
  token_reserve : Nat
  tokens_sold : Nat
  sol_price_usd : Nat
  total_volume : Nat
  trade_count : Nat
  is_graduated : Bool
  deriving DecidableEq

/-- BondingCurve::should_graduate, state.rs lines 120 to 139: false when already
graduated; otherwise both the supply check and the u128 USD-raised comparison
must hold. The unwrap_or(0) branches of the two u128 checked_mul calls are
modelled exactly (for u64 fields they are dead, see should_graduate_iff). -/
def should_graduate (c : BondingCurve) : Bool :=
  if c.is_graduated then false
  else
    let tokens_sold_check := decide (CURVE_SUPPLY ≤ c.tokens_sold)
    let usd_raised :=
      (if c.sol_reserve * c.sol_price_usd < U128_SIZE
       then c.sol_reserve * c.sol_price_usd else 0) / 1000000000
    let usd_threshold :=
      if GRADUATION_USD * USD_SCALE < U128_SIZE then GRADUATION_USD * USD_SCALE else 0
    tokens_sold_check && decide (usd_threshold ≤ usd_raised)

/-- Resolution of the SOL exchange rate in BuyTokens::execute and
SellTokens::execute, trading.rs lines 191 to 204 and 386 to 399: a fresh Pyth
price is used directly, a stale feed falls back to the stored price, which is
rejected with InvalidPrice exactly when it is zero. -/
def resolve_sol_price (is_fresh : Bool) (fresh_price backup_price : Nat) : Except Err Nat :=
  if is_fresh then .ok fresh_price
  else if backup_price = 0 then .error .InvalidPrice
  else .ok backup_price

/-- Environment a trade executes in: the abstracted curve numerics, the
platform fee (u16 in LaunchpadConfig), the Pyth freshness outcome and fresh
price, the current lamports of the SOL vault, the token_launch activity flag
and circulating supply, and the user position counters — everything read by
BuyTokens::execute and SellTokens::execute besides the BondingCurve account. -/
structure TradeEnv where
  fm : CurveNumerics
  platform_fee_bps : Nat
  is_fresh : Bool
  fresh_price : Nat
  vault_lamports : Nat
  is_active : Bool
  circulating_supply : Nat
  user_token_amount : Nat
  user_sol_invested : Nat
  user_sol_received : Nat
  user_buy_count : Nat
  user_sell_count : Nat

/-- BuyTokens::execute, trading.rs lines 183 to 374, restricted to its effect on
the BondingCurve account under all-or-nothing commit semantics: the Anchor
constraints (token_launch.is_active, not bonding_curve.is_graduated) run first,
then the amount and liquidity requires, price resolution (with the fresh-price
write-back of line 196), the quote, the fee arithmetic, the slippage bound, the
vault rent top-up arithmetic, the five checked curve-state updates, the

circulating-supply and user-position checked updates (kept for their failure
paths), and finally the should_graduate check of lines 357 to 359 which is the
only write to is_graduated. -/
def buy_tokens_execute (env : TradeEnv) (curve : BondingCurve)
    (amount max_sol_cost : Nat) : Except Err BondingCurve :=
  if env.is_active = false then .error .TradingInactive
  else if curve.is_graduated then .error .CurveGraduated
  else if amount = 0 then .error .InvalidAmount
  else if curve.token_reserve < amount then .error .InsufficientLiquidity
  else
  (resolve_sol_price env.is_fresh env.fresh_price curve.sol_price_usd).bind fun sol_price_usd =>
  let curve1 := if env.is_fresh then { curve with sol_price_usd := env.fresh_price } else curve
  (calculate_buy_price env.fm curve1.tokens_sold amount sol_price_usd).bind fun cost =>
  (checked_mul cost env.platform_fee_bps).bind fun fee_num =>
  (checked_div fee_num 10000).bind fun fee =>
  (checked_add cost fee).bind fun total_cost =>
  if max_sol_cost < total_cost then .error .SlippageExceeded
  else
  (if env.vault_lamports < 890880
   then checked_add cost (890880 - env.vault_lamports)
   else .ok cost).bind fun _amount_to_transfer =>
  (checked_add curve1.sol_reserve cost).bind fun new_sol_reserve =>
  (checked_sub curve1.token_reserve amount).bind fun new_token_reserve =>
  (checked_add curve1.tokens_sold amount).bind fun new_tokens_sold =>
  (checked_add curve1.total_volume cost).bind fun new_total_volume =>
  (checked_add curve1.trade_count 1).bind fun new_trade_count =>
  (checked_add env.circulating_supply amount).bind fun _circ =>
  (checked_add env.user_token_amount amount).bind fun _pos_tokens =>
  (checked_add env.user_sol_invested total_cost).bind fun _pos_invested =>
  (checked_add_u32 env.user_buy_count 1).bind fun _pos_buys =>
  let curve2 : BondingCurve :=
    { curve1 with
      sol_reserve := new_sol_reserve
      token_reserve := new_token_reserve
      tokens_sold := new_tokens_sold
      total_volume := new_total_volume
      trade_count := new_trade_count }
  .ok (if should_graduate curve2 then { curve2 with is_graduated := true } else curve2)

/-- SellTokens::execute, trading.rs lines 377 to 535, restricted to its effect on
the BondingCurve account under all-or-nothing commit semantics: Anchor
constraints first, then amount and balance requires, price resolution, the
sell quote, fee arithmetic, the minimum-output and reserve-liquidity requires,
the five checked curve-state updates and the checked bookkeeping updates.
No path writes is_graduated. -/
def sell_tokens_execute (env : TradeEnv) (curve : BondingCurve)
    (amount min_sol_output : Nat) : Except Err BondingCurve :=
  if env.is_active = false then .error .TradingInactive
  else if curve.is_graduated then .error .CurveGraduated
  else if amount = 0 then .error .InvalidAmount
  else if env.user_token_amount < amount then .error .InsufficientBalance
  else
  (resolve_sol_price env.is_fresh env.fresh_price curve.sol_price_usd).bind fun sol_price_usd =>
  let curve1 := if env.is_fresh then { curve with sol_price_usd := env.fresh_price } else curve
  (calculate_sell_price env.fm curve1.tokens_sold amount sol_price_usd).bind fun proceeds =>
  (checked_mul proceeds env.platform_fee_bps).bind fun fee_num =>
  (checked_div fee_num 10000).bind fun fee =>
  (checked_sub proceeds fee).bind fun net_proceeds =>
  if net_proceeds < min_sol_output then .error .SlippageExceeded
  else if curve1.sol_reserve < proceeds then .error .InsufficientLiquidity
  else
  (checked_sub curve1.sol_reserve proceeds).bind fun new_sol_reserve =>
  (checked_add curve1.token_reserve amount).bind fun new_token_reserve =>
  (checked_sub curve1.tokens_sold amount).bind fun new_tokens_sold =>
  (checked_add curve1.total_volume proceeds).bind fun new_total_volume =>
  (checked_add curve1.trade_count 1).bind fun new_trade_count =>
  (checked_sub env.circulating_supply amount).bind fun _circ =>
  (checked_sub env.user_token_amount amount).bind fun _pos_tokens =>
  (checked_add env.user_sol_received net_proceeds).bind fun _pos_received =>
  (checked_add_u32 env.user_sell_count 1).bind fun _pos_sells =>
  .ok { curve1 with
        sol_reserve := new_sol_reserve
        token_reserve := new_token_reserve
        tokens_sold := new_tokens_sold
        total_volume := new_total_volume
        trade_count := new_trade_count }

/-- One committed trade against a bonding curve: a successful BuyTokens::execute
or SellTokens::execute in some environment. Failed instructions commit nothing
(Solana transaction semantics), so they induce no step. -/
inductive TradeStep : BondingCurve → BondingCurve → Prop where
  | buy (env : TradeEnv) (amount max_sol_cost : Nat) {c c' : BondingCurve}
      (h : buy_tokens_execute env c amount max_sol_cost = .ok c') : TradeStep c c'
  | sell (env : TradeEnv) (amount min_sol_output : Nat) {c c' : BondingCurve}
      (h : sell_tokens_execute env c amount min_sol_output = .ok c') : TradeStep c c'

/-- A concrete instantiation of the floating-point abstraction, used to
evaluate the embedding on explicit inputs in witnesses and counterexamples.
Every statement instantiated at it is also proved (or refuted) for all
instantiations, so nothing below depends on its particular shape. -/
def trivNumerics : CurveNumerics where
  buyLamports := fun s q rate => s + q + rate
  spotLamports := fun c rate => c + rate

/-- Analysis of a successful Except bind, used throughout the proofs below. -/
theorem except_bind_ok {α β : Type} (x : Except Err α) (f : α → Except Err β) (b : β) :
    x.bind f = .ok b ↔ ∃ a, x = .ok a ∧ f a = .ok b := by
  cases x <;> simp [Except.bind]

/-- C1: for 0 < amount ≤ tokens_sold, calculate_sell_price returns exactly the
result of calculate_buy_price on the interval from tokens_sold minus amount to
tokens_sold: sells are the same integral run backward. -/
theorem buy_sell_symmetry (fm : CurveNumerics) (tokens_sold amount sol_price_usd : Nat)
    (hpos : 0 < amount) (hle : amount ≤ tokens_sold) :
    calculate_sell_price fm tokens_sold amount sol_price_usd =
      calculate_buy_price fm (tokens_sold - amount) amount sol_price_usd := by
  have hne : amount ≠ 0 := Nat.pos_iff_ne_zero.mp hpos
  have hnlt : ¬ tokens_sold < amount := Nat.not_lt.mpr hle
  have hsub : checked_sub tokens_sold amount = .ok (tokens_sold - amount) := by
    simp [checked_sub, hle]
  simp [calculate_sell_price, hne, hnlt, hsub]

/-- Witness for C1 at a concrete input: selling 3 tokens from a position of
5 tokens sold quotes exactly a buy of 3 tokens from a position of 2. -/
theorem buy_sell_symmetry_witness :
    calculate_sell_price trivNumerics 5000000000 3000000000 700 =
      calculate_buy_price trivNumerics 2000000000 3000000000 700 :=
  buy_sell_symmetry trivNumerics 5000000000 3000000000 700 (by decide) (by decide)

/-- C4 (amended): calculate_buy_price fails with InvalidAmount exactly on zero
amount; for positive amount it fails with MathOverflow exactly when the u64
sum tokens_sold plus amount overflows, with InsufficientSupply exactly when
that sum is representable but exceeds CURVE_SUPPLY, and succeeds otherwise. -/
theorem buy_error_characterization (fm : CurveNumerics)
    (tokens_sold amount sol_price_usd : Nat) :
    (calculate_buy_price fm tokens_sold amount sol_price_usd = .error .InvalidAmount ↔
      amount = 0)
    ∧ (calculate_buy_price fm tokens_sold amount sol_price_usd = .error .MathOverflow ↔
      amount ≠ 0 ∧ U64_SIZE ≤ tokens_sold + amount)
    ∧ (calculate_buy_price fm tokens_sold amount sol_price_usd = .error .InsufficientSupply ↔
      amount ≠ 0 ∧ tokens_sold + amount < U64_SIZE ∧ CURVE_SUPPLY < tokens_sold + amount)
    ∧ (amount ≠ 0 → tokens_sold + amount ≤ CURVE_SUPPLY →
      ∃ v, calculate_buy_price fm tokens_sold amount sol_price_usd = .ok v) := by
  have hcs_lt : CURVE_SUPPLY < U64_SIZE := by decide
  by_cases hamt : amount = 0
  · simp [calculate_buy_price, hamt]
  · by_cases hov : tokens_sold + amount < U64_SIZE
    · have hadd : checked_add tokens_sold amount = .ok (tokens_sold + amount) := by
        simp [checked_add, hov]
      by_cases hsup : tokens_sold + amount ≤ CURVE_SUPPLY
      · simp [calculate_buy_price, hamt, hadd, hsup, Nat.not_lt.mpr hsup, Nat.not_le.mp]
        omega
      · simp [calculate_buy_price, hamt, hadd, hsup, Nat.not_le.mp hsup, hov]
    · have hadd : checked_add tokens_sold amount = .error .MathOverflow := by
        simp [checked_add, hov]
      simp [calculate_buy_price, hamt, hadd]
      omega

/-- Witness for C4 at a concrete input: a buy of 5 units from an empty curve
satisfies the amended preconditions and succeeds. -/
theorem buy_error_characterization_witness :
    ∃ v, calculate_buy_price trivNumerics 0 5 700 = .ok v :=
  (buy_error_characterization trivNumerics 0 5 700).2.2.2 (by decide) (by decide)

/-- Counterexample for C4 as stated: when the u64 addition of tokens_sold and
amount overflows, the error is MathOverflow, not InsufficientSupply. -/
theorem buy_overflow_error_refutes_claim :
    ¬ ∀ (fm : CurveNumerics) (tokens_sold amount sol_price_usd : Nat),
        amount ≠ 0 → CURVE_SUPPLY < tokens_sold + amount →
        calculate_buy_price fm tokens_sold amount sol_price_usd =
          .error .InsufficientSupply := by
  intro h
  have h1 := h trivNumerics (U64_SIZE - 1) 1 700 (by decide) (by decide)
  have h2 : calculate_buy_price trivNumerics (U64_SIZE - 1) 1 700 =
      .error .MathOverflow := rfl
  rw [h2] at h1
  simp at h1

/-- C5 (amended): for u64 tokens_sold, calculate_sell_price fails with
InvalidAmount exactly on zero amount; for positive amount it fails with
InsufficientSupply exactly when the amount exceeds tokens_sold or tokens_sold
itself exceeds CURVE_SUPPLY (in which case the delegated buy-side supply check
fires); it never fails with MathOverflow (the subtraction cannot fail), and
succeeds whenever 0 < amount ≤ tokens_sold ≤ CURVE_SUPPLY. -/
theorem sell_error_characterization (fm : CurveNumerics)
    (tokens_sold amount sol_price_usd : Nat) (hts : tokens_sold < U64_SIZE) :
    (calculate_sell_price fm tokens_sold amount sol_price_usd = .error .InvalidAmount ↔
      amount = 0)
    ∧ (calculate_sell_price fm tokens_sold amount sol_price_usd = .error .InsufficientSupply ↔
      amount ≠ 0 ∧ (tokens_sold < amount ∨ CURVE_SUPPLY < tokens_sold))
    ∧ (calculate_sell_price fm tokens_sold amount sol_price_usd ≠ .error .MathOverflow)
    ∧ (amount ≠ 0 → amount ≤ tokens_sold → tokens_sold ≤ CURVE_SUPPLY →
      ∃ v, calculate_sell_price fm tokens_sold amount sol_price_usd = .ok v) := by
  by_cases hamt : amount = 0
  · simp [calculate_sell_price, hamt]
  · by_cases hlt : tokens_sold < amount
    · simp [calculate_sell_price, hamt, hlt]
    · have hle : amount ≤ tokens_sold := Nat.not_lt.mp hlt
      have hsub : checked_sub tokens_sold amount = .ok (tokens_sold - amount) := by
        simp [checked_sub, hle]
      have hsum : tokens_sold - amount + amount = tokens_sold := Nat.sub_add_cancel hle
      have hadd : checked_add (tokens_sold - amount) amount = .ok tokens_sold := by
        simp [checked_add, hsum, hts]
      by_cases hsup : tokens_sold ≤ CURVE_SUPPLY
      · simp [calculate_sell_price, calculate_buy_price, hamt, hlt, hsub, hadd, hsum, hsup,
          Nat.not_lt.mpr hsup]
      · simp [calculate_sell_price, calculate_buy_price, hamt, hlt, hsub, hadd, hsum, hsup,
          Nat.not_le.mp hsup]

/-- Witness for C5 at a concrete input: selling the whole position of one
token sold satisfies the amended preconditions and succeeds. -/
theorem sell_error_characterization_witness :
    ∃ v, calculate_sell_price trivNumerics 1000000000 1000000000 700 = .ok v :=
  (sell_error_characterization trivNumerics 1000000000 1000000000 700
    (by decide)).2.2.2 (by decide) (by decide) (by decide)

/-- Counterexample for C5 as stated: with tokens_sold above CURVE_SUPPLY the
sell passes its own checks, yet the delegated buy-side supply check fails, so
InsufficientSupply is returned although amount does not exceed tokens_sold. -/
theorem sell_beyond_supply_refutes_claim :
    ¬ ∀ (fm : CurveNumerics) (tokens_sold amount sol_price_usd : Nat),
        amount ≠ 0 → amount ≤ tokens_sold →
        calculate_sell_price fm tokens_sold amount sol_price_usd ≠
          .error .InsufficientSupply := by
  intro h
  exact h trivNumerics (CURVE_SUPPLY + 1) 1 700 (by decide) (by decide) rfl

/-- C6: any cost returned by a successful calculate_buy_price is at least one
lamport; a computed figure that truncates to zero is floored to 1. -/
theorem buy_no_free_trade (fm : CurveNumerics)
    (tokens_sold amount sol_price_usd cost : Nat) (hpos : 0 < amount)
    (h : calculate_buy_price fm tokens_sold amount sol_price_usd = .ok cost) :
    1 ≤ cost := by
  unfold calculate_buy_price at h
  split at h
  · exact absurd h (by simp)
  · split at h
    · exact absurd h (by simp)
    · split at h
      · have : (if fm.buyLamports (to_token_count tokens_sold) (to_token_count amount)
            sol_price_usd = 0 then 1
            else fm.buyLamports (to_token_count tokens_sold) (to_token_count amount)
              sol_price_usd) = cost := by
          exact Except.ok.inj h
        split at this
        · omega
        · omega
      · exact absurd h (by simp)

/-- Witness for C6 at a concrete input: buying one token from the empty curve
costs 701 lamports in the sample numerics, which is at least 1. -/
theorem buy_no_free_trade_witness : 0 < 1000000000 ∧ 1 ≤ 701 :=
  ⟨by decide, buy_no_free_trade trivNumerics 0 1000000000 700 701 (by decide) rfl⟩

/-- C2: for u64 state fields, should_graduate is false when the curve is
already graduated, and otherwise holds exactly when both tokens_sold has
reached CURVE_SUPPLY and the USD value of the reserve at the stored rate
(reserve times rate divided by one billion) reaches GRADUATION_USD times
USD_SCALE; holding only one of the two conditions leaves it false. -/
theorem should_graduate_iff (c : BondingCurve)
    (h1 : c.sol_reserve < U64_SIZE) (h2 : c.sol_price_usd < U64_SIZE) :
    should_graduate c = true ↔
      c.is_graduated = false ∧ CURVE_SUPPLY ≤ c.tokens_sold ∧
      GRADUATION_USD * USD_SCALE ≤ c.sol_reserve * c.sol_price_usd / 1000000000 := by
  have hprod : c.sol_reserve * c.sol_price_usd < U128_SIZE := by
    calc c.sol_reserve * c.sol_price_usd
        < U64_SIZE * U64_SIZE := Nat.mul_lt_mul'' h1 h2
      _ = U128_SIZE := by decide
  have hthr : GRADUATION_USD * USD_SCALE < U128_SIZE := by decide
  unfold should_graduate
  by_cases hg : c.is_graduated
  · simp [hg]
  · simp [hg, hprod, hthr]

/-- Witness for C2 at a concrete state: 100 SOL of reserve at a rate of 150
USD per SOL with the full curve supply sold graduates. -/
theorem should_graduate_iff_witness :
    should_graduate ⟨100000000000, 0, 800000000000000000, 15000000000, 0, 0, false⟩ = true :=
  (should_graduate_iff ⟨100000000000, 0, 800000000000000000, 15000000000, 0, 0, false⟩
    (by decide) (by decide)).mpr ⟨rfl, by decide, by decide⟩

/-- C3 at its failing input: calculate_usd_raised silently reduces the u128
quotient modulo 2 to the 64 through the bare as-u64 cast, so at maximal u64
reserve and rate the returned value differs from the exact integer quotient
instead of surfacing MathOverflow. -/
theorem usd_raised_truncates :
    calculate_usd_raised (U64_SIZE - 1) (U64_SIZE - 1) =
      .ok ((U64_SIZE - 1) * (U64_SIZE - 1) / 1000000000 % U64_SIZE)
    ∧ (U64_SIZE - 1) * (U64_SIZE - 1) / 1000000000 % U64_SIZE ≠
      (U64_SIZE - 1) * (U64_SIZE - 1) / 1000000000 :=
  ⟨rfl, by decide⟩

/-- C7 (amended): get_spot_price factors through the floored whole-token
count, so any two supply positions with the same whole-token count price
identically; strict monotonicity can hold at most between distinct
whole-token counts and is a property of the floating-point curve evaluation,
not of the integer pipeline. -/
theorem spot_price_token_granularity (fm : CurveNumerics) (sol_price_usd s1 s2 : Nat)
    (h : s1 / 1000000000 = s2 / 1000000000) :
    get_spot_price fm s1 sol_price_usd = get_spot_price fm s2 sol_price_usd := by
  simp [get_spot_price, to_token_count, h]

/-- Witness for C7 at concrete inputs: positions 5 and 6 lamport-units share
the whole-token count 0 and price identically. -/
theorem spot_price_token_granularity_witness :
    get_spot_price trivNumerics 5 11 = get_spot_price trivNumerics 6 11 :=
  spot_price_token_granularity trivNumerics 11 5 6 (by decide)

/-- Counterexample for C7 as stated: no instantiation of the floating-point
abstraction makes get_spot_price strictly increasing on all pairs s1 < s2
below CURVE_SUPPLY, because positions 0 and 1 run the very same computation
after the whole-token floor. -/
theorem spot_price_not_strictly_monotone :
    ¬ ∀ (fm : CurveNumerics) (sol_price_usd s1 s2 : Nat),
        0 < sol_price_usd → s1 < s2 → s2 ≤ CURVE_SUPPLY →
        ∃ v1 v2, get_spot_price fm s1 sol_price_usd = .ok v1 ∧
          get_spot_price fm s2 sol_price_usd = .ok v2 ∧ v1 < v2 := by
  intro h
  obtain ⟨v1, v2, h1, h2, hlt⟩ := h trivNumerics 700 0 1 (by decide) (by decide) (by decide)
  have heq : get_spot_price trivNumerics 0 700 = get_spot_price trivNumerics 1 700 := rfl
  rw [heq, h2] at h1
  injection h1 with hv
  omega

/-- Never returned by the quote path: calculate_buy_price cannot fail with
InvalidPrice, whatever the exchange rate (shared helper). -/
theorem buy_never_invalid_price (fm : CurveNumerics)
    (tokens_sold amount sol_price_usd : Nat) :
    calculate_buy_price fm tokens_sold amount sol_price_usd ≠ .error .InvalidPrice := by
  intro hcontra
  unfold calculate_buy_price at hcontra
  split at hcontra
  · simp at hcontra
  · split at hcontra
    · rename_i e heq
      unfold checked_add at heq
      split at heq
      · simp at heq
      · injection heq with he
        injection hcontra with he2
        rw [← he] at he2
        simp at he2
    · split at hcontra <;> simp at hcontra

/-- C8 (amended): the pricing operations perform no exchange-rate validation
at all — calculate_buy_price and calculate_sell_price can never fail with
InvalidPrice and get_spot_price succeeds even at rate zero; the only zero-rate
InvalidPrice rejection lives in the trading layer, which raises it exactly
when the Pyth feed is stale and the stored fallback price is zero. -/
theorem invalid_price_only_in_trading_layer (fm : CurveNumerics)
    (tokens_sold amount sol_price_usd fresh_price : Nat) :
    (calculate_buy_price fm tokens_sold amount sol_price_usd ≠ .error .InvalidPrice)
    ∧ (calculate_sell_price fm tokens_sold amount sol_price_usd ≠ .error .InvalidPrice)
    ∧ (∃ v, get_spot_price fm tokens_sold 0 = .ok v)
    ∧ (resolve_sol_price false fresh_price 0 = .error .InvalidPrice) := by
  refine ⟨buy_never_invalid_price fm tokens_sold amount sol_price_usd, ?_, ⟨_, rfl⟩, rfl⟩
  intro hcontra
  unfold calculate_sell_price at hcontra
  split at hcontra
  · simp at hcontra
  · split at hcontra
    · simp at hcontra
    · split at hcontra
      · rename_i e heq
        unfold checked_sub at heq
        split at heq
        · simp at heq
        · injection heq with he
          injection hcontra with he2
          rw [← he] at he2
          simp at he2
      · exact buy_never_invalid_price fm _ amount sol_price_usd hcontra

/-- Witness for C8 at concrete inputs: the trading layer rejects a zero
stored fallback price with InvalidPrice when the oracle feed is stale. -/
theorem invalid_price_only_in_trading_layer_witness :
    resolve_sol_price false 700 0 = .error .InvalidPrice :=
  (invalid_price_only_in_trading_layer trivNumerics 0 1 700 700).2.2.2

/-- Counterexample for C8 as stated: a buy quoted at exchange rate zero
returns Ok rather than failing with InvalidPrice, for any instantiation of
the floating-point abstraction. -/
theorem zero_rate_not_rejected :
    ¬ ∀ (fm : CurveNumerics) (tokens_sold amount : Nat),
        amount ≠ 0 → tokens_sold + amount ≤ CURVE_SUPPLY →
        calculate_buy_price fm tokens_sold amount 0 = .error .InvalidPrice := by
  intro h
  have h1 := h trivNumerics 0 1000000000 (by decide) (by decide)
  have h2 : calculate_buy_price trivNumerics 0 1000000000 0 = .ok 1 := rfl
  rw [h2] at h1
  simp at h1

/-- C10: get_spot_price is total and floored — it returns Ok with a value of
at least one lamport for every supply position and every exchange rate,
including zero — and consequently the spot-price-zero early return inside
calculate_slippage is unreachable: slippage computes identically with the
branch removed. -/
theorem spot_total_and_floored (fm : CurveNumerics)
    (tokens_sold amount sol_price_usd : Nat) :
    (∃ v, get_spot_price fm tokens_sold sol_price_usd = .ok v ∧ 1 ≤ v)
    ∧ calculate_slippage fm tokens_sold amount sol_price_usd =
        calculate_slippage_nobranch fm tokens_sold amount sol_price_usd := by
  have hw : (if fm.spotLamports (to_token_count tokens_sold) sol_price_usd = 0 then 1
      else fm.spotLamports (to_token_count tokens_sold) sol_price_usd) ≠ 0 := by
    split
    · exact one_ne_zero
    · assumption
  constructor
  · refine ⟨_, rfl, ?_⟩
    split
    · exact Nat.le_refl 1
    · omega
  · simp [calculate_slippage, calculate_slippage_nobranch, get_spot_price, hw]

/-- A successful BuyTokens::execute only runs against a non-graduated curve
(the Anchor account constraint fires first). -/
theorem buy_ok_flag (env : TradeEnv) (c : BondingCurve) (amount limit : Nat)
    (c2 : BondingCurve) (h : buy_tokens_execute env c amount limit = .ok c2) :
    c.is_graduated = false := by
  unfold buy_tokens_execute at h
  split at h
  · simp at h
  · split at h
    · simp at h
    · rename_i hg
      simp at hg
      exact hg

/-- A successful SellTokens::execute only runs against a non-graduated curve
and leaves the graduation flag false: no sell path writes is_graduated. -/
theorem sell_ok_flag (env : TradeEnv) (c : BondingCurve) (amount limit : Nat)
    (c2 : BondingCurve) (h : sell_tokens_execute env c amount limit = .ok c2) :
    c.is_graduated = false ∧ c2.is_graduated = false := by
  unfold sell_tokens_execute at h
  split at h
  · simp at h
  · split at h
    · simp at h
    · split at h
      · simp at h
      · split at h
        · simp at h
        · rename_i hg hamt hbal
          simp at hg
          refine ⟨hg, ?_⟩
          repeat' first
            | (obtain ⟨_, _, h⟩ := h)
            | (split at h)
            | (simp only [except_bind_ok] at h)
          all_goals
            first
            | simp at h
            | simp [hg]

/-- Any committed trade starts from a non-graduated curve. -/
theorem trade_step_flag {c c' : BondingCurve} (h : TradeStep c c') :
    c.is_graduated = false := by
  cases h with
  | buy env amount limit hrun => exact buy_ok_flag env c amount limit c' hrun
  | sell env amount limit hrun => exact (sell_ok_flag env c amount limit c' hrun).1

/-- C9: graduation is one-way — along any chain of committed buy and sell
steps a true is_graduated flag never reverts; both instructions reject a
graduated curve with CurveGraduated (given an active launch); and a sell
never changes the flag, so the should_graduate block of the buy path is the
only write, which sets it from false to true. -/
theorem graduation_one_way (c c' : BondingCurve) (env : TradeEnv) (amount limit : Nat) :
    (Relation.ReflTransGen TradeStep c c' → c.is_graduated = true → c'.is_graduated = true)
    ∧ (c.is_graduated = true → env.is_active = true →
        buy_tokens_execute env c amount limit = .error .CurveGraduated)
    ∧ (c.is_graduated = true → env.is_active = true →
        sell_tokens_execute env c amount limit = .error .CurveGraduated)
    ∧ (∀ c2, sell_tokens_execute env c amount limit = .ok c2 →
        c2.is_graduated = c.is_graduated) := by
  refine ⟨?_, ?_, ?_, ?_⟩
  · intro hchain hg
    induction hchain with
    | refl => exact hg
    | tail hchain2 hstep ih =>
        have hf := trade_step_flag hstep
        rw [hf] at ih
        simp at ih
  · intro hg hact
    simp [buy_tokens_execute, hact, hg]
  · intro hg hact
    simp [sell_tokens_execute, hact, hg]
  · intro c2 hrun
    have h2 := sell_ok_flag env c amount limit c2 hrun
    rw [h2.1, h2.2]

/-- A concrete graduated curve state, used by the C9 witness. -/
def gradCurve : BondingCurve := ⟨0, 0, 0, 700, 0, 0, true⟩

/-- A concrete trade environment with an active launch, used by the C9 witness. -/
def exampleEnv : TradeEnv := ⟨trivNumerics, 0, false, 0, 890880, true, 0, 0, 0, 0, 0, 0⟩

/-- Witness for C9 at a concrete graduated state: the invariant applied to the
empty chain, and the concrete CurveGraduated rejection of a buy. -/
theorem graduation_one_way_witness :
    gradCurve.is_graduated = true ∧
    buy_tokens_execute exampleEnv gradCurve 5 5 = .error .CurveGraduated :=
  ⟨(graduation_one_way gradCurve gradCurve exampleEnv 5 5).1 Relation.ReflTransGen.refl rfl,
   (graduation_one_way gradCurve gradCurve exampleEnv 5 5).2.1 rfl rfl⟩

/-- Sanity check that the C9 step relation is not vacuous: a concrete buy of
the final token at a healthy reserve commits, crosses the graduation
threshold, and flips the flag from false to true. -/
theorem buy_step_nonvacuous :
    buy_tokens_execute
      ⟨trivNumerics, 0, false, 0, 890880, true, 0, 0, 0, 0, 0, 0⟩
      ⟨100000000000, 800000000000000000, 799999999000000000, 15000000000, 0, 0, false⟩
      1000000000 1000000000000000000 =
    .ok ⟨115800000000, 799999999000000000, 800000000000000000, 15000000000,
         15800000000, 1, true⟩ := rfl
